import Mathlib

/-!
Verification of the ring_io GPP sample application (src/ring_io.c and
src/Linux/main.c) against its natural-language specification.

The development shallowly embeds the parts of the driver the claims are
about: machine integers are `Nat` with explicit `% 2^32` where the C code
can overflow, stateful loops become explicit state passing over lists of
environment inputs (grant sizes, status codes, flag samples), and the
external DSPLink constants (`DSPLINK_BUF_ALIGN`, `MAX_PROCESSORS`,
`MAX_DSPS`) are parameters of the definitions.
-/

namespace RingIoGpp

/-- 2^32, the modulus of the C `Uint32` type used throughout ring_io.c. -/
def UINT32_MOD : Nat := 4294967296

/-- `Uint32` subtraction `x - y` as computed by the C code
(two's-complement wraparound), for `x y < UINT32_MOD`. -/
def sub32 (x y : Nat) : Nat := (x + UINT32_MOD - y) % UINT32_MOD

/-- `#define XFER_VALUE 5u` (ring_io.c line 172): the byte value used to
initialize the output buffer and validate the input buffer. -/
def XFER_VALUE : Nat := 5

/-- `#define RING_IO_WRITER_BUF_SIZE 1024u` (ring_io.c line 263). -/
def RING_IO_WRITER_BUF_SIZE : Nat := 1024

/-- `#define RING_IO_ATTR_BUF_SIZE 2048u` (ring_io.c line 163). -/
def RING_IO_ATTR_BUF_SIZE : Nat := 2048

/-- `#define RINGIO_DATA_END 3u` (ring_io.c line 224). -/
def RINGIO_DATA_END : Nat := 3

/-- The `DSPLINK_ALIGN (x, align)` macro of the external DSPLink headers:
round `x` up to the next multiple of `align`.  The alignment
`DSPLINK_BUF_ALIGN` is platform configuration outside this repository, so
it is kept as the parameter `a` everywhere. -/
def DSPLINK_ALIGN (x a : Nat) : Nat := ((x + a - 1) / a) * a

/-- `RING_IO_BytesToTransfer1 = DSPLINK_ALIGN(1024, DSPLINK_BUF_ALIGN)`
(ring_io.c lines 520 and 531): frame byte target of channel pair 1. -/
def RING_IO_BytesToTransfer1 (a : Nat) : Nat := DSPLINK_ALIGN 1024 a

/-- `RING_IO_BytesToTransfer2 = DSPLINK_ALIGN(2048, DSPLINK_BUF_ALIGN)`
(ring_io.c lines 521 and 533): frame byte target of channel pair 2. -/
def RING_IO_BytesToTransfer2 (a : Nat) : Nat := DSPLINK_ALIGN 2048 a

/-- `RING_IO_BufferSize1 = DSPLINK_ALIGN(4096, DSPLINK_BUF_ALIGN)`
(ring_io.c lines 516 and 525): default reader data-buffer size, pair 1. -/
def RING_IO_BufferSize1 (a : Nat) : Nat := DSPLINK_ALIGN 4096 a

/-- `RING_IO_BufferSize3 = DSPLINK_ALIGN(2048, DSPLINK_BUF_ALIGN)`
(ring_io.c lines 518 and 529): default reader data-buffer size, pair 2. -/
def RING_IO_BufferSize3 (a : Nat) : Nat := DSPLINK_ALIGN 2048 a

/-- DSP_STATUS values distinguished by the embedded code paths. -/
inductive DspStatus where
  | sok
  | efail
  deriving DecidableEq, Repr

/-- Result of one successful-acquire iteration body of the writer
streaming loop (ring_io.c lines 960-1016 for `RING_IO_WriterClient1`,
1668-1723 for `RING_IO_WriterClient2`): which amount was passed to
`RingIO_release` (`none` when no release call was made), whether
`RingIO_cancel` was called on the unreleased remainder, and the new value
of `bytesTransfered`. -/
structure WriterStepResult where
  released : Option Nat
  canceled : Bool
  bytesTransfered : Nat
  deriving DecidableEq, Repr

/-- The body executed by the writer streaming loop after a successful
`RingIO_acquire` granting `g` bytes, translated from ring_io.c lines
975-1016 (and the identical lines 1682-1723 of the second writer):

  if (T != 0 && bytesTransfered + acqSize > T) {            // Uint32 sum
    if (bytesTransfered != T) release(T - bytesTransfered); // Uint32 sub
    cancel();
    bytesTransfered = T;
  } else {
    relStatus = release(acqSize);
    if (!FAILED(relStatus)) bytesTransfered += acqSize;
  }

`T` is the frame target (`RING_IO_BytesToTransfer1/2`), `bt` the current
`bytesTransfered`, `relOk` whether the `RingIO_release` call in the
non-overshoot branch succeeds. -/
def writerStep (T bt g : Nat) (relOk : Bool) : WriterStepResult :=
  if T ≠ 0 ∧ T < (bt + g) % UINT32_MOD then
    { released := if bt ≠ T then some (sub32 T bt) else none
      canceled := true
      bytesTransfered := T }
  else
    { released := some g
      canceled := false
      bytesTransfered := if relOk then (bt + g) % UINT32_MOD else bt }

/-- The writer streaming loop `while (T == 0 || bytesTransfered < T)`
(ring_io.c lines 927-1037), driven by the sequence `grants` of successful
`RingIO_acquire` results: each list element is the granted size together
with whether the subsequent `RingIO_release` succeeds.  Iterations in
which `RingIO_setvAttribute` fails or the acquire fails (the task then
blocks on its semaphore and retries) perform no acquire/release cycle and
are not represented.  Returns `some (cycles, bytesTransfered)` when the
loop exits on its own after `cycles` acquire/release cycles, and `none`
when the grant sequence is exhausted with the loop still running. -/
def writerStream (T : Nat) : Nat → List (Nat × Bool) → Option (Nat × Nat)
  | bt, grants =>
    if T ≠ 0 ∧ T ≤ bt then some (0, bt)
    else
      match grants with
      | [] => none
      | (g, r) :: rest =>
        match writerStream T (writerStep T bt g r).bytesTransfered rest with
        | none => none
        | some (c, b) => some (c + 1, b)

end RingIoGpp

namespace RingIoGpp

/-- C1 — Writer overshoot handling: for every frame with nonzero target
`T`, if an acquire in the writer streaming loop grants `g` bytes such that
`bytesTransfered + g > T`, the writer releases exactly
`T - bytesTransfered` bytes (when `bytesTransfered ≠ T`), cancels the
unreleased remainder of the acquisition, and sets `bytesTransfered` to
exactly `T`.  Hypotheses `bt ≤ T` and `bt + g < 2^32` delimit the states
reachable in the loop (the loop guard keeps `bytesTransfered` below `T`,
and no `Uint32` overflow occurs for the program's frame targets). -/
theorem writer_overshoot (T bt g : Nat) (relOk : Bool)
    (hT : T ≠ 0) (hbt : bt ≤ T) (hover : T < bt + g)
    (hnoov : bt + g < UINT32_MOD) :
    (writerStep T bt g relOk).released
        = (if bt ≠ T then some (T - bt) else none)
      ∧ (writerStep T bt g relOk).canceled = true
      ∧ (writerStep T bt g relOk).bytesTransfered = T := by
  have hmod : (bt + g) % UINT32_MOD = bt + g := Nat.mod_eq_of_lt hnoov
  have hsub : sub32 T bt = T - bt := by
    unfold sub32
    have hTlt : T < UINT32_MOD := lt_of_le_of_lt (Nat.le_of_lt hover) hnoov
    have h1 : T + UINT32_MOD - bt = UINT32_MOD + (T - bt) := by omega
    rw [h1, Nat.add_mod_left]
    exact Nat.mod_eq_of_lt (by omega)
  unfold writerStep
  rw [if_pos ⟨hT, by rw [hmod]; exact hover⟩]
  refine ⟨?_, rfl, rfl⟩
  by_cases hbe : bt = T
  · simp [hbe]
  · simp [hbe, hsub]

/-- Witness for `writer_overshoot` at the spec's Scenario C: frame length
1000, grant 1024 with nothing yet transferred — release 1000, cancel the
remainder, `bytesTransfered` finalizes at 1000. -/
theorem writer_overshoot_witness :
    (writerStep 1000 0 1024 true).released = some 1000
      ∧ (writerStep 1000 0 1024 true).canceled = true
      ∧ (writerStep 1000 0 1024 true).bytesTransfered = 1000 := by
  have h := writer_overshoot 1000 0 1024 true (by decide) (by decide)
    (by decide) (by decide)
  simpa using h

/-- In a state with `bt + C ≤ N < 2^32`, a grant of `C` bytes with a
successful release takes the non-overshoot branch and advances
`bytesTransfered` to `bt + C`. -/
lemma writerStep_no_overshoot (N bt C : Nat) (h : bt + C ≤ N)
    (hN : N < UINT32_MOD) :
    (writerStep N bt C true).bytesTransfered = bt + C := by
  have hmod : (bt + C) % UINT32_MOD = bt + C :=
    Nat.mod_eq_of_lt (lt_of_le_of_lt h hN)
  unfold writerStep
  rw [if_neg]
  · simp [hmod]
  · rw [hmod]; rintro ⟨-, hlt⟩; omega

/-- After `j` chunks of `C` bytes each, `n` more chunks of `C` with
successful releases drive the streaming loop from `bytesTransfered = j*C`
to exit with `bytesTransfered = j*C + n*C` in exactly `n` further
acquire/release cycles. -/
lemma writerStream_replicate (C : Nat) (hC : C ≠ 0) :
    ∀ n bt, bt + n * C < UINT32_MOD → (n = 0 → bt ≠ 0) →
      writerStream (bt + n * C) bt (List.replicate n (C, true))
        = some (n, bt + n * C) := by
  intro n
  induction n with
  | zero =>
    intro bt _ hbt
    have hbt0 : bt ≠ 0 := hbt rfl
    unfold writerStream
    rw [if_pos ⟨by simpa using hbt0, by simp⟩]
    simp
  | succ m ih =>
    intro bt hlt _
    have hCpos : 0 < C := Nat.pos_of_ne_zero hC
    rw [Nat.succ_mul] at hlt ⊢
    have hguard : ¬(bt + (m * C + C) ≠ 0 ∧ bt + (m * C + C) ≤ bt) := by
      rintro ⟨-, hle⟩; omega
    have hstep : (writerStep (bt + (m * C + C)) bt C true).bytesTransfered
        = bt + C :=
      writerStep_no_overshoot _ _ _ (by omega) (by omega)
    have hrec := ih (bt + C) (by omega) (by intro _; omega)
    rw [show bt + C + m * C = bt + (m * C + C) by ring] at hrec
    unfold writerStream
    rw [if_neg hguard]
    simp only [List.replicate_succ, hstep, hrec]

/-- With frame target `0`, the streaming loop consumes every grant and
never exits on its own. -/
lemma writerStream_target_zero :
    ∀ (grants : List (Nat × Bool)) (bt : Nat),
      writerStream 0 bt grants = none := by
  intro grants
  induction grants with
  | nil => intro bt; unfold writerStream; simp
  | cons g rest ih =>
    intro bt
    unfold writerStream
    simp [ih]

/-- C2 — Chunking of a frame: for every frame with nonzero target `N`
below 2^32, if every successful acquire in the writer streaming loop
grants exactly `C` bytes (with the matching release succeeding) and `C`
divides `N`, the loop performs exactly `N / C` acquire/release cycles and
exits with `bytesTransfered = N`; and when the target is `0` the loop
never exits on its own, whatever grants arrive. -/
theorem writer_chunking (N C : Nat) (hN : N ≠ 0) (hC : C ≠ 0)
    (hdvd : C ∣ N) (hlt : N < UINT32_MOD) :
    writerStream N 0 (List.replicate (N / C) (C, true)) = some (N / C, N)
      ∧ ∀ (grants : List (Nat × Bool)) (bt : Nat),
          writerStream 0 bt grants = none := by
  constructor
  · have hmul : N / C * C = N := Nat.div_mul_cancel hdvd
    have h := writerStream_replicate C hC (N / C) 0
      (by simpa [hmul] using hlt)
      (by intro h0; exfalso; apply hN; rw [← hmul, h0, Nat.zero_mul])
    simpa [hmul] using h
  · exact writerStream_target_zero

/-- Witness for `writer_chunking`: target 8 in chunks of 2 gives exactly
4 acquire/release cycles ending at 8; target 0 never exits on the sample
grant list `[(3, true), (5, true)]`. -/
theorem writer_chunking_witness :
    writerStream 8 0 (List.replicate (8 / 2) (2, true)) = some (8 / 2, 8)
      ∧ writerStream 0 7 [(3, true), (5, true)] = none := by
  have h := writer_chunking 8 2 (by decide) (by decide)
    (by decide) (by decide)
  exact ⟨h.1, h.2 [(3, true), (5, true)] 7⟩

/-- `RING_IO_Reader_VerifyData` (ring_io.c lines 3155-3240): `status` is
initialized to `DSP_SOK`; the only loop in the body (lines 3167-3173)
prints the first byte twenty times and never assigns `status`; the whole
verification block comparing the buffer against `XFER_VALUE` (lines
3181-3237) is commented out in the source; the function returns `status`
unchanged. -/
def RING_IO_Reader_VerifyData (buffer : List Nat) (size : Nat) : DspStatus :=
  let status := DspStatus.sok
  status

/-- Predicate written from the spec's words ("verifying a deterministic
fill pattern"): the first `size` bytes of the buffer all equal
`XFER_VALUE`.  Used only to state what `RING_IO_Reader_VerifyData` was
documented to check. -/
def matchesFillPattern (buffer : List Nat) (size : Nat) : Prop :=
  ∀ k, k < size → buffer.get? k = some XFER_VALUE

/-- C3 — Data-integrity verification, evaluated at a failing input: the
buffer `[0, 0, 0]` of size 3 does not match the deterministic fill
pattern (which expects byte 5 everywhere), yet `RING_IO_Reader_VerifyData`
returns `DSP_SOK`, not the failure status `DSP_EFAIL` the claim (and the
function's own doc comment, ring_io.c lines 381-384) promises; indeed the
function returns `DSP_SOK` for every buffer and size, because its
verification block is commented out. -/
theorem verify_data_always_sok :
    RING_IO_Reader_VerifyData [0, 0, 0] 3 = DspStatus.sok
      ∧ ¬ matchesFillPattern [0, 0, 0] 3
      ∧ DspStatus.sok ≠ DspStatus.efail
      ∧ ∀ (buffer : List Nat) (size : Nat),
          RING_IO_Reader_VerifyData buffer size = DspStatus.sok := by
  refine ⟨rfl, ?_, by decide, fun _ _ => rfl⟩
  intro h
  have := h 0 (by decide)
  simp [XFER_VALUE] at this

/-- `RINGIO_NOTIFICATION_ONCE` vs `RINGIO_NOTIFICATION_ALWAYS`: the
notifier mode passed to `RingIO_setNotifier`. -/
inductive NotifyMode where
  | once
  | always
  deriving DecidableEq, Repr

/-- The private semaphores the workers create (`RING_IO_CreateSem`) and
bind to their notifiers: one writer-side and one reader-side semaphore
per channel pair. -/
inductive SemId where
  | writerSem1
  | readerSem1
  | writerSem2
  | readerSem2
  deriving DecidableEq, Repr

/-- Arguments of a `RingIO_setNotifier` registration: notification mode,
watermark threshold in bytes, and the semaphore the notify callback
posts. -/
structure NotifierReg where
  mode : NotifyMode
  watermark : Nat
  sem : SemId
  deriving DecidableEq, Repr

/-- The writer notifier registered by `RING_IO_WriterClient1` (ring_io.c
lines 795-800): `RingIO_setNotifier(RingIOWriterHandle1,
RINGIO_NOTIFICATION_ONCE, RING_IO_BytesToTransfer1,
&RING_IO_Writer_Notify1, semPtrWriter)`. -/
def writer1Notifier (a : Nat) : NotifierReg :=
  { mode := NotifyMode.once
    watermark := RING_IO_BytesToTransfer1 a
    sem := SemId.writerSem1 }

/-- The writer notifier registered by `RING_IO_WriterClient2` (ring_io.c
lines 1500-1504): `RingIO_setNotifier(RingIOWriterHandle2,
RINGIO_NOTIFICATION_ONCE, RING_IO_WRITER_BUF_SIZE,
&RING_IO_Writer_Notify2, semPtrWriter)`. -/
def writer2Notifier : NotifierReg :=
  { mode := NotifyMode.once
    watermark := RING_IO_WRITER_BUF_SIZE
    sem := SemId.writerSem2 }

/-- Frame byte-transfer target of writer worker 1: the bound of its
streaming loop `while (bytesTransfered < RING_IO_BytesToTransfer1)`
(ring_io.c lines 927-928). -/
def writer1FrameTarget (a : Nat) : Nat := RING_IO_BytesToTransfer1 a

/-- Frame byte-transfer target of writer worker 2: the bound of its
streaming loop `while (bytesTransfered < RING_IO_BytesToTransfer2)`
(ring_io.c lines 1635-1636). -/
def writer2FrameTarget (a : Nat) : Nat := RING_IO_BytesToTransfer2 a

/-- Rounding up to a multiple never decreases the value. -/
lemma le_dsplink_align (x a : Nat) (ha : 0 < a) : x ≤ DSPLINK_ALIGN x a := by
  unfold DSPLINK_ALIGN
  rw [Nat.mul_comm]
  have h := Nat.div_add_mod (x + a - 1) a
  have hmod : (x + a - 1) % a < a := Nat.mod_lt _ ha
  omega

/-- C4 counterexample — at alignment 1 (so that `DSPLINK_ALIGN` is the
identity), writer worker 2's registered watermark is
`RING_IO_WRITER_BUF_SIZE = 1024`, which is not its frame byte-transfer
target `RING_IO_BytesToTransfer2 = 2048`: the claim that every writer
worker's watermark equals its frame target fails on the second channel
pair. -/
theorem writer2_watermark_not_frame_target :
    writer2Notifier.mode = NotifyMode.once
      ∧ writer2Notifier.watermark = 1024
      ∧ writer2FrameTarget 1 = 2048
      ∧ writer2Notifier.watermark ≠ writer2FrameTarget 1 := by
  refine ⟨rfl, rfl, by decide, by decide⟩

/-- C4 (amended) — Writer watermark registration: both writer workers
register a ONE_SHOT (`RINGIO_NOTIFICATION_ONCE`) notifier bound to their
own private semaphore; writer 1's watermark equals its frame
byte-transfer target (`RING_IO_BytesToTransfer1`), but writer 2's
watermark is the constant `RING_IO_WRITER_BUF_SIZE = 1024`, strictly
below its frame target `RING_IO_BytesToTransfer2` (2048 rounded up) for
every positive buffer alignment. -/
theorem writer_watermarks (a : Nat) (ha : 0 < a) :
    writer1Notifier a
        = { mode := NotifyMode.once
            watermark := writer1FrameTarget a
            sem := SemId.writerSem1 }
      ∧ writer2Notifier.mode = NotifyMode.once
      ∧ writer2Notifier.sem = SemId.writerSem2
      ∧ writer2Notifier.watermark = RING_IO_WRITER_BUF_SIZE
      ∧ writer2Notifier.watermark < writer2FrameTarget a := by
  refine ⟨rfl, rfl, rfl, rfl, ?_⟩
  have h := le_dsplink_align 2048 a ha
  show (1024 : Nat) < writer2FrameTarget a
  unfold writer2FrameTarget RING_IO_BytesToTransfer2
  omega

/-- Witness for `writer_watermarks` at the common DSPLink buffer
alignment of 128 bytes. -/
theorem writer_watermarks_witness :
    0 < 128
      ∧ writer1Notifier 128
          = { mode := NotifyMode.once
              watermark := writer1FrameTarget 128
              sem := SemId.writerSem1 }
      ∧ writer2Notifier.watermark < writer2FrameTarget 128 := by
  have h := writer_watermarks 128 (by decide)
  exact ⟨by decide, h.1, h.2.2.2.2⟩

/-- RingIO status codes distinguished by the reader READ_LOOP's branch
structure. -/
inductive RingioStatus where
  | success
  | spendingAttr
  | efailure
  | ebufempty
  | otherError
  deriving DecidableEq, Repr

/-- Outcome of the attribute reads performed in the READ_LOOP's
pending-attribute branch: `RingIO_getAttribute` either yields a fixed
attribute type (status SUCCESS or SPENDINGATTRIBUTE), reports
EVARIABLEATTRIBUTE — after which `RingIO_getvAttribute` either succeeds
with `attrs[0] = value` or fails (buffer too small, invalid args, pending
data, or other failure; each only logged) — or fails with any other
status (only logged). -/
inductive AttrOutcome where
  | fixedAttr (type : Nat)
  | varAttr (value : Nat)
  | varAttrFailed
  | attrError
  deriving DecidableEq, Repr

/-- Locals of the reader READ_LOOP that carry across iterations:
`acqSize` (the size requested by the next `RingIO_acquire`), `rcvSize`
(bytes still expected of the chunk announced by the last variable
attribute), `totalRcvbytes`, and `exitFlag`. -/
structure ReaderState where
  acqSize : Nat
  rcvSize : Nat
  totalRcvbytes : Nat
  exitFlag : Bool
  deriving DecidableEq, Repr

/-- Branch structure of one READ_LOOP iteration up to (but excluding) the
trailing `if (acqSize == 0)` reset, translated from ring_io.c lines
1148-1296 (`RING_IO_WriterClient1`'s embedded read loop; the loops at
lines 1855-2011, 2293-2443 and 2623-2774 are textually identical up to
the channel constants).  `RingIO_acquire` writes the granted size back
through its in/out `acqSize` argument, so the state's `acqSize` first
becomes `granted`; then:
  * data available (`status == RINGIO_SUCCESS || acqSize > 0`): verify
    (the result does not influence control flow), release, subtract the
    grant from `rcvSize` (`Uint32` arithmetic) and re-arm `acqSize` to
    the remaining `rcvSize`, or to `bufSize` when the chunk is exhausted;
  * `RINGIO_SPENDINGATTRIBUTE` with a zero grant: read the attribute — a
    fixed `RINGIO_DATA_END` sets `exitFlag`, a variable attribute loads
    `rcvSize = acqSize = attrs[0]`, every failure is only logged;
  * `RINGIO_EFAILURE`/`RINGIO_EBUFEMPTY`: block on the semaphore, retry;
  * any other status: reset `acqSize` to the default buffer size. -/
def readerStepCore (bufSize : Nat) (s : ReaderState)
    (st : RingioStatus) (granted : Nat) (attr : AttrOutcome) : ReaderState :=
  let s0 := { s with acqSize := granted }
  if st = RingioStatus.success ∨ 0 < granted then
    let rcv := sub32 s0.rcvSize granted
    let tot := (s0.totalRcvbytes + granted) % UINT32_MOD
    if rcv = 0 then
      { s0 with rcvSize := bufSize, acqSize := bufSize, totalRcvbytes := tot }
    else
      { s0 with rcvSize := rcv, acqSize := rcv, totalRcvbytes := tot }
  else if st = RingioStatus.spendingAttr ∧ granted = 0 then
    match attr with
    | AttrOutcome.fixedAttr t =>
      if t = RINGIO_DATA_END then { s0 with exitFlag := true } else s0
    | AttrOutcome.varAttr v => { s0 with rcvSize := v, acqSize := v }
    | AttrOutcome.varAttrFailed => s0
    | AttrOutcome.attrError => s0
  else if st = RingioStatus.efailure ∨ st = RingioStatus.ebufempty then
    s0
  else
    { s0 with acqSize := bufSize }

/-- One full READ_LOOP iteration: the branches of `readerStepCore`
followed by the trailing reset `if (acqSize == 0) acqSize = bufSize;`
(ring_io.c lines 1298-1303, 2006-2011, 2438-2443, 2769-2774). -/
def readerStep (bufSize : Nat) (s : ReaderState)
    (st : RingioStatus) (granted : Nat) (attr : AttrOutcome) : ReaderState :=
  let s1 := readerStepCore bufSize s st granted attr
  if s1.acqSize = 0 then { s1 with acqSize := bufSize } else s1

/-- Reader state on entering the READ_LOOP: `acqSize` is set to the
channel's default data-buffer size just before the loop (ring_io.c lines
1147, 1854, 2292, 2622) and `rcvSize` was initialized to the same
constant at declaration. -/
def readerInit (bufSize : Nat) : ReaderState :=
  { acqSize := bufSize, rcvSize := bufSize, totalRcvbytes := 0
    exitFlag := false }

/-- C5 — Reader chunk-size invariant: provided the channel's default
data-buffer size is nonzero (it is `DSPLINK_ALIGN` of 4096 or 2048), the
size passed to `RingIO_acquire` is strictly positive on loop entry and
after every iteration, whatever the acquire status, granted size and
attribute outcome of the iteration: whenever an iteration would leave
`acqSize` at 0 the trailing reset restores the default data-buffer
size. -/
theorem reader_acqsize_positive (bufSize : Nat) (h : 0 < bufSize) :
    0 < (readerInit bufSize).acqSize
      ∧ ∀ (s : ReaderState) (st : RingioStatus) (granted : Nat)
          (attr : AttrOutcome),
          0 < (readerStep bufSize s st granted attr).acqSize := by
  refine ⟨h, fun s st granted attr => ?_⟩
  unfold readerStep
  by_cases h1 : (readerStepCore bufSize s st granted attr).acqSize = 0
  · simp only [h1, if_pos]
    exact h
  · simp only [h1, if_neg, if_false]
    exact Nat.pos_of_ne_zero h1

/-- Witness for `reader_acqsize_positive` at the pair-1 default buffer
size 4096 (alignment 1), on an iteration whose acquire fails with a
pending zero-valued variable attribute — the worst case, where both the
grant and the announced chunk size are 0. -/
theorem reader_acqsize_positive_witness :
    0 < RING_IO_BufferSize1 1
      ∧ 0 < (readerInit (RING_IO_BufferSize1 1)).acqSize
      ∧ 0 < (readerStep (RING_IO_BufferSize1 1)
          (readerInit (RING_IO_BufferSize1 1))
          RingioStatus.spendingAttr 0 (AttrOutcome.varAttr 0)).acqSize := by
  have h := reader_acqsize_positive (RING_IO_BufferSize1 1) (by decide)
  exact ⟨by decide, h.1,
    h.2 (readerInit (RING_IO_BufferSize1 1)) RingioStatus.spendingAttr 0
      (AttrOutcome.varAttr 0)⟩

/-- The writer teardown's drain loop
`while (RingIO_getValidSize(h) != 0 || RingIO_getValidAttrSize(h) != 0)
RING_IO_Sleep(10);` followed by `RingIO_close(h)` (ring_io.c lines
1373-1378 for writer 1, 2075-2080 for writer 2), driven by the sequence
of `(validSize, validAttrSize)` pairs observed at successive polls.
Returns `some k` when the loop polls `k` times seeing an undrained
channel (sleeping 10 ms after each such poll) and then reaches
`RingIO_close` at observation `k`; `none` when every observation in the
list still shows an undrained channel, so `RingIO_close` is not reached
within it. -/
def drainLoop : List (Nat × Nat) → Option Nat
  | [] => none
  | (v, va) :: rest =>
    if v ≠ 0 ∨ va ≠ 0 then
      match drainLoop rest with
      | none => none
      | some k => some (k + 1)
    else
      some 0

/-- C6 — Drain-before-close: whenever the writer teardown reaches
`RingIO_close` (the drain loop terminates at observation `k`), the
channel state observed at that moment has both `RingIO_getValidSize` and
`RingIO_getValidAttrSize` equal to 0; until then the worker keeps
polling, sleeping 10 ms between polls. -/
theorem drain_before_close (obs : List (Nat × Nat)) (k : Nat)
    (h : drainLoop obs = some k) :
    obs.get? k = some (0, 0) := by
  induction obs generalizing k with
  | nil => simp [drainLoop] at h
  | cons p rest ih =>
    obtain ⟨v, va⟩ := p
    unfold drainLoop at h
    by_cases hvz : v ≠ 0 ∨ va ≠ 0
    · rw [if_pos hvz] at h
      cases hrec : drainLoop rest with
      | none => rw [hrec] at h; exact absurd h (by simp)
      | some j =>
        rw [hrec] at h
        have hk : k = j + 1 := by
          have := Option.some.inj h; omega
        subst hk
        simpa using ih j hrec
    · rw [if_neg hvz] at h
      have hk : k = 0 := (Option.some.inj h).symm
      subst hk
      push_neg at hvz
      simp [hvz.1, hvz.2]

/-- Witness for `drain_before_close`: the channel is still undrained at
the first two polls (valid data 5 then valid attributes 3) and is closed
at the third observation, which is `(0, 0)`. -/
theorem drain_before_close_witness :
    drainLoop [(5, 0), (0, 3), (0, 0)] = some 2
      ∧ [(5, 0), (0, 3), (0, 0)].get? 2 = some ((0 : Nat), (0 : Nat)) := by
  refine ⟨by decide, ?_⟩
  exact drain_before_close [(5, 0), (0, 3), (0, 0)] 2 (by decide)

/-- Result of `main` (src/Linux/main.c lines 65-101): the value returned
to the OS, whether the usage text was printed, whether `RING_IO_Main` was
invoked (a transfer attempted), and — when it was — the parsed processor
id value whose original string `main` forwards as the `strProcessorId`
argument. -/
structure MainResult where
  exitCode : Nat
  usagePrinted : Bool
  transferAttempted : Bool
  strProcessorIdArg : Option Nat
  deriving DecidableEq, Repr

/-- `main` (src/Linux/main.c lines 65-101).  `procIdArg` stands for the
nonnegative value `atoi(argv[2])` returns; the source stores it into
`Uint8 processorId`, so it is truncated modulo 256 before the
`processorId < MAX_PROCESSORS` guard.  `MAX_PROCESSORS` comes from the
external DSPLink headers and is the parameter `maxProcessors`. -/
def cMain (argc : Nat) (procIdArg : Nat) (maxProcessors : Nat) : MainResult :=
  if argc ≠ 3 ∧ argc ≠ 2 then
    { exitCode := 0, usagePrinted := true, transferAttempted := false
      strProcessorIdArg := none }
  else
    let processorId : Nat := if argc = 2 then 0 else procIdArg % 256
    if processorId < maxProcessors then
      { exitCode := 0, usagePrinted := false, transferAttempted := true
        strProcessorIdArg := some (if argc = 2 then 0 else procIdArg) }
    else
      { exitCode := 0, usagePrinted := false, transferAttempted := false
        strProcessorIdArg := none }

/-- C7 counterexample — the claim that a processor id argument `≥` the
configured processor count never leads to a transfer fails: with
`argv[2]` parsing to 256 and a configured processor count of 2, the
`Uint8` store truncates 256 to 0, the guard `0 < 2` passes, and
`RING_IO_Main` is invoked even though `256 ≥ 2`. -/
theorem main_procid_truncation :
    (2 : Nat) ≤ 256
      ∧ (cMain 3 256 2).transferAttempted = true
      ∧ (cMain 3 256 2).exitCode = 0 := by
  decide

/-- C7 (amended) — Exit status: `main` returns exit status 0 on every
invocation; with a wrong argument count it prints usage and attempts no
transfer; with three arguments a transfer is skipped exactly when the
parsed processor id **truncated to an unsigned 8-bit value** is `≥` the
configured processor count (an argument `≥ 256` wraps modulo 256 and can
still lead to a transfer); no failure kind produces a nonzero exit
code. -/
theorem main_exit_status (argc procIdArg maxProcessors : Nat) :
    (cMain argc procIdArg maxProcessors).exitCode = 0
      ∧ (argc ≠ 2 → argc ≠ 3 →
          (cMain argc procIdArg maxProcessors).usagePrinted = true
            ∧ (cMain argc procIdArg maxProcessors).transferAttempted = false)
      ∧ (argc = 3 → maxProcessors ≤ procIdArg % 256 →
          (cMain argc procIdArg maxProcessors).transferAttempted = false) := by
  refine ⟨?_, ?_, ?_⟩
  · unfold cMain
    split
    · rfl
    · dsimp only
      split <;> split <;> rfl
  · intro h2 h3
    unfold cMain
    rw [if_pos ⟨h3, h2⟩]
    exact ⟨rfl, rfl⟩
  · intro h3 hge
    subst h3
    simp [cMain, Nat.not_lt.mpr hge]

/-- Witness for `main_exit_status`: one invocation with a bad argument
count (usage, no transfer, exit 0) and one with processor id argument 300
against a count of 2 (300 % 256 = 44 ≥ 2: no transfer, exit 0). -/
theorem main_exit_status_witness :
    (cMain 1 0 2).exitCode = 0
      ∧ (cMain 1 0 2).usagePrinted = true
      ∧ (cMain 1 0 2).transferAttempted = false
      ∧ (cMain 3 300 2).transferAttempted = false := by
  have h1 := main_exit_status 1 0 2
  have h2 := main_exit_status 3 300 2
  exact ⟨h1.1, (h1.2.1 (by decide) (by decide)).1,
    (h1.2.1 (by decide) (by decide)).2, h2.2.2 rfl (by decide)⟩

/-- The outer per-frame loop of `RING_IO_WriterClient2` (ring_io.c lines
1579-2040): each iteration first sleeps 5 s, then reads the global
`Task_Run` flag exactly once, at the top (lines 1584-1588), and breaks
out before any frame work when it is FALSE; otherwise it performs one
complete frame (the write task then the embedded read task, neither of
which mentions `Task_Run`) and loops.  Driven by the list of successive
flag samples, it returns `some k` — the worker completed exactly `k`
whole frames and then exited at a frame boundary — when a FALSE sample is
reached, and `none` when the sample list is exhausted with the loop still
running. -/
def writer2FrameLoop : List Bool → Option Nat
  | [] => none
  | f :: rest =>
    if f = false then some 0
    else
      match writer2FrameLoop rest with
      | none => none
      | some k => some (k + 1)

/-- C8 — Between-frames cancellation only: the secondary channel-pair
worker samples `Task_Run` once per outer iteration; a FALSE sample at the
top of the loop makes it exit with zero further frame work, and after `k`
TRUE samples followed by a FALSE one it has performed exactly `k` whole
frames — the flag value never interrupts a frame in progress, since the
per-frame work (`writerStream`, `readerStep`) takes no `Task_Run`
input. -/
theorem writer2_polls_flag_between_frames :
    (∀ fs : List Bool, writer2FrameLoop (false :: fs) = some 0)
      ∧ ∀ (k : Nat) (rest : List Bool),
          writer2FrameLoop (List.replicate k true ++ false :: rest)
            = some k := by
  constructor
  · intro fs
    simp [writer2FrameLoop]
  · intro k
    induction k with
    | zero => intro rest; simp [writer2FrameLoop]
    | succ m ih =>
      intro rest
      simp [List.replicate_succ, writer2FrameLoop, ih rest]

/-- Two's-complement wraparound of the C `Int16` type applied after the
increment `i++` of a signed 16-bit counter: results lie in
`[-32768, 32767]`. -/
def int16wrap (x : Int) : Int := (x + 32768) % 65536 - 32768

/-- C usual-arithmetic conversion of the `Int16` counter for the
comparison `i < size` against the `Uint32` operand `size`: the promoted
value is converted to `Uint32`, so negative counters become values near
2^32. -/
def uint32OfInt16 (i : Int) : Nat := (i % (4294967296 : Int)).toNat

/-- The fill loop of `RING_IO_InitBuffer` (ring_io.c lines 3263-3268):
`for (i = 0; i < size; i++) { *ptr8 = XFER_VALUE; ptr8++; }` with `i` a
signed 16-bit counter, `pos` the byte offset of `ptr8` from the start of
the buffer, and an explicit fuel bound; `none` means the fuel ran out
with the loop condition still true (as happens for `size ≥ 32768`, where
the counter wraps below `size` forever). -/
def initBufferLoop (size : Nat) :
    List Nat → Nat → Int → Nat → Option (List Nat)
  | buf, pos, i, fuel =>
    if uint32OfInt16 i < size then
      match fuel with
      | 0 => none
      | fuel' + 1 =>
        initBufferLoop size (buf.set pos XFER_VALUE) (pos + 1)
          (int16wrap (i + 1)) fuel'
    else
      some buf

/-- `RING_IO_InitBuffer` (ring_io.c lines 3256-3270): does nothing when
the buffer pointer is NULL, otherwise runs the fill loop from `i = 0`.
The fuel `size` is exact for the terminating regime `size ≤ 32767` (one
loop entry per byte written). -/
def RING_IO_InitBuffer (buffer : Option (List Nat)) (size : Nat) :
    Option (List Nat) :=
  match buffer with
  | none => none
  | some buf => initBufferLoop size buf 0 0 size

/-- Setting `XFER_VALUE` at `n` consecutive positions starting at `pos`:
the effect the fill loop is expected to have. -/
def fillFrom (buf : List Nat) (pos : Nat) : Nat → List Nat
  | 0 => buf
  | n + 1 => fillFrom (buf.set pos XFER_VALUE) (pos + 1) n

/-- Nonnegative counters below 2^32 convert to themselves. -/
lemma uint32OfInt16_coe (j : Nat) (h : j < 4294967296) :
    uint32OfInt16 (j : Int) = j := by
  unfold uint32OfInt16
  omega

/-- Counters that stay at most 32767 do not wrap. -/
lemma int16wrap_coe (j : Nat) (h : j ≤ 32767) :
    int16wrap (j : Int) = (j : Int) := by
  unfold int16wrap
  omega

/-- With `size ≤ 32767` the fill loop started at offset `pos` with
counter `pos` and fuel `size - pos` terminates and sets `XFER_VALUE` at
positions `pos, …, size - 1`. -/
lemma initBufferLoop_fill (size : Nat) (hsize : size ≤ 32767) :
    ∀ (n pos : Nat) (buf : List Nat), pos + n = size →
      initBufferLoop size buf pos (pos : Int) n
        = some (fillFrom buf pos n) := by
  intro n
  induction n with
  | zero =>
    intro pos buf hpos
    unfold initBufferLoop
    rw [if_neg]
    · rfl
    · rw [uint32OfInt16_coe pos (by omega)]
      omega
  | succ m ih =>
    intro pos buf hpos
    unfold initBufferLoop
    rw [if_pos (by rw [uint32OfInt16_coe pos (by omega)]; omega)]
    show initBufferLoop size (buf.set pos XFER_VALUE) (pos + 1)
        (int16wrap ((pos : Int) + 1)) m = some (fillFrom buf pos (m + 1))
    have hcast : ((pos : Int) + 1) = ((pos + 1 : Nat) : Int) := by push_cast; ring
    rw [hcast, int16wrap_coe (pos + 1) (by omega)]
    show initBufferLoop size (buf.set pos XFER_VALUE) (pos + 1)
        ((pos + 1 : Nat) : Int) m
      = some (fillFrom (buf.set pos XFER_VALUE) (pos + 1) m)
    exact ih (pos + 1) (buf.set pos XFER_VALUE) (by omega)

/-- Positions below the fill window are untouched. -/
lemma fillFrom_get?_lt (q : Nat) :
    ∀ (n pos : Nat) (buf : List Nat), q < pos →
      (fillFrom buf pos n).get? q = buf.get? q := by
  intro n
  induction n with
  | zero => intro pos buf _; rfl
  | succ m ih =>
    intro pos buf hq
    show (fillFrom (buf.set pos XFER_VALUE) (pos + 1) m).get? q = buf.get? q
    rw [ih (pos + 1) (buf.set pos XFER_VALUE) (by omega)]
    exact List.get?_set_ne _ _ (by omega)

/-- Positions inside the fill window hold `XFER_VALUE` afterwards. -/
lemma fillFrom_get? :
    ∀ (n pos k : Nat) (buf : List Nat), k < n → pos + n ≤ buf.length →
      (fillFrom buf pos n).get? (pos + k) = some XFER_VALUE := by
  intro n
  induction n with
  | zero => intro pos k buf hk _; omega
  | succ m ih =>
    intro pos k buf hk hlen
    show (fillFrom (buf.set pos XFER_VALUE) (pos + 1) m).get? (pos + k)
        = some XFER_VALUE
    match k with
    | 0 =>
      have h0 := fillFrom_get?_lt pos m (pos + 1) (buf.set pos XFER_VALUE)
        (by omega)
      have h1 : (buf.set pos XFER_VALUE).get? pos = some XFER_VALUE :=
        List.get?_set_eq_of_lt _ (by omega)
      simpa using h0.trans h1
    | j + 1 =>
      have := ih (pos + 1) j (buf.set pos XFER_VALUE) (by omega)
        (by rw [List.length_set]; omega)
      rw [show pos + (j + 1) = pos + 1 + j by omega]
      exact this

/-- C9 — Deterministic test pattern: for every non-null buffer holding at
least `size` bytes and every `size` not exceeding 32767 (the largest
value the signed 16-bit loop counter reaches without wrapping),
`RING_IO_InitBuffer` terminates and leaves each of the first `size` bytes
equal to `XFER_VALUE = 5`. -/
theorem init_buffer_pattern (buf : List Nat) (size : Nat)
    (hsize : size ≤ 32767) (hlen : size ≤ buf.length) :
    ∃ out, RING_IO_InitBuffer (some buf) size = some out
      ∧ ∀ k, k < size → out.get? k = some XFER_VALUE := by
  refine ⟨fillFrom buf 0 size, ?_, ?_⟩
  · show initBufferLoop size buf 0 0 size = some (fillFrom buf 0 size)
    have h := initBufferLoop_fill size hsize size 0 buf (by omega)
    simpa using h
  · intro k hk
    have h := fillFrom_get? size 0 k buf hk (by omega)
    simpa using h

/-- Witness for `init_buffer_pattern` on the three-byte buffer
`[1, 2, 3]` with `size = 2`: the first two bytes become 5. -/
theorem init_buffer_pattern_witness :
    2 ≤ 32767
      ∧ 2 ≤ ([1, 2, 3] : List Nat).length
      ∧ ∃ out, RING_IO_InitBuffer (some [1, 2, 3]) 2 = some out
          ∧ ∀ k, k < 2 → out.get? k = some XFER_VALUE :=
  ⟨by decide, by decide,
    init_buffer_pattern [1, 2, 3] 2 (by decide) (by decide)⟩

/-- Processor ids a run of `RING_IO_Main` (ring_io.c lines 2957-3145)
passes to its collaborators: the id given to `RING_IO_Create` (and
through it to `PROC_attach`, `POOL_open`, `PROC_load`, `RingIO_create`,
`PROC_start`) and the id given to the `RING_IO_Delete` teardown; `none`
when the call is not reached. -/
structure SessionOps where
  createProcId : Option Nat
  deleteProcId : Option Nat
  deriving DecidableEq, Repr

/-- `RING_IO_Main` (ring_io.c lines 2957-3145).  The local
`Uint8 processorId` is initialized to 0 (line 2965); the block that would
assign it from `strProcessorId` (lines 2973-2993) is commented out in the
source, so the argument is never read; the `processorId >= MAX_DSPS`
guard (line 2995) and every subsequent call use the constant 0.
`MAX_DSPS` comes from the external DSPLink headers and is the parameter
`maxDsps`. -/
def RING_IO_Main (dspExecutableNonNull : Bool) (strProcessorId : Nat)
    (maxDsps : Nat) : SessionOps :=
  let processorId : Nat := 0
  if dspExecutableNonNull then
    if maxDsps ≤ processorId then
      { createProcId := none, deleteProcId := none }
    else
      { createProcId := some processorId, deleteProcId := some processorId }
  else
    { createProcId := none, deleteProcId := none }

/-- C10 — Processor id CLI argument ignored: for every invocation whose
`argv[2]` parses to a valid nonzero processor id `n` below the configured
processor count, `main` does invoke `RING_IO_Main` and forwards the
argument, but the session (attach, pool open, image load, channel
creation and teardown) runs with processor id 0 regardless of `n`,
because `RING_IO_Main`'s local `processorId` is initialized to 0 and
never assigned from `strProcessorId`. -/
theorem processor_id_ignored (n maxProcessors maxDsps : Nat)
    (hn : 0 < n) (hlt : n < maxProcessors) (hdsp : 0 < maxDsps) :
    (cMain 3 n maxProcessors).transferAttempted = true
      ∧ (cMain 3 n maxProcessors).strProcessorIdArg = some n
      ∧ RING_IO_Main true n maxDsps
          = { createProcId := some 0, deleteProcId := some 0 }
      ∧ RING_IO_Main true n maxDsps = RING_IO_Main true 0 maxDsps := by
  have hmod : n % 256 < maxProcessors :=
    lt_of_le_of_lt (Nat.mod_le n 256) hlt
  refine ⟨?_, ?_, ?_, ?_⟩
  · simp [cMain, hmod]
  · simp [cMain, hmod]
  · simp [RING_IO_Main, Nat.not_le.mpr hdsp]
  · rfl

/-- Witness for `processor_id_ignored` at processor id argument 1 with
two configured processors and one DSP: the transfer is attempted and the
whole session runs with processor id 0. -/
theorem processor_id_ignored_witness :
    (0 : Nat) < 1 ∧ (1 : Nat) < 2 ∧ (0 : Nat) < 1
      ∧ (cMain 3 1 2).transferAttempted = true
      ∧ RING_IO_Main true 1 1
          = { createProcId := some 0, deleteProcId := some 0 } := by
  have h := processor_id_ignored 1 2 1 (by decide) (by decide) (by decide)
  exact ⟨by decide, by decide, by decide, h.1, h.2.2.1⟩

end RingIoGpp
